import Mathlib

/-
Verification of the network object replication layer
(Source/Engine/Networking/NetworkReplicator.cpp).

The C++ code is shallowly embedded: Guids and client ids become Nat
(0 encodes Guid::Empty), the global tables (Objects, SpawnQueue,
DespawnQueue, IdsRemappingTable, SerializersTable) become fields of an
explicit `RepState`, live scripting objects are tracked by the set of
their ids (`RepState.live`, modelling ScriptingObjectReference::Get
returning null once an object was deleted), and the ambient engine
state (NetworkManager, Scripting type registry, scene graph parents,
prefab links) becomes an explicit environment `NetEnv`.  Message sends
are returned as explicit lists instead of being pushed to the peer.
-/

set_option maxHeartbeats 1000000

namespace NetRep

/-- Role of the local peer with respect to a replicated object.
Modelled from the spec: the NetworkObjectRole enum is declared in a header
that is not part of the reviewed sources; the spec (section 3) lists the
values OwnedAuthoritative, Replicated and None, which are exactly the ones
NetworkReplicator.cpp uses. -/
inductive NetworkObjectRole where
  | None
  | Replicated
  | OwnedAuthoritative
deriving DecidableEq

/-- Scripting type descriptor as consulted by InvokeSerializer: a numeric
identity, the optional INetworkSerializable interface implementation
(carrying its vtable offset, ScriptingType::InterfaceImplementation
.VTableOffset), and the declared base type.  `root` has no base type
(GetBaseType() returns a null handle), `derived` names its base, giving a
finite single-inheritance chain. -/
inductive ScriptingType where
  | root : Nat → Option Nat → ScriptingType
  | derived : Nat → Option Nat → ScriptingType → ScriptingType
deriving DecidableEq

/-- Interface lookup: ScriptingType::GetInterface(INetworkSerializable) result,
as the stored vtable offset when the type implements the interface. -/
def ScriptingType.interfaceOffset : ScriptingType → Option Nat
  | .root _ i => i
  | .derived _ i _ => i

/-- Base-type lookup, ScriptingType::GetBaseType (none encodes a null handle). -/
def ScriptingType.base : ScriptingType → Option ScriptingType
  | .root _ _ => none
  | .derived _ _ b => some b

/-- Identity of a serialization callback: the two INetworkSerializable thunks
(INetworkSerializable_Serialize / INetworkSerializable_Deserialize) or a
user-registered function pointer. -/
inductive SerialFn where
  | ifaceSerialize
  | ifaceDeserialize
  | user : Nat → SerialFn
deriving DecidableEq

/-- Entry of SerializersTable (struct Serializer in NetworkReplicator.cpp):
serialize/deserialize methods with their tag values. -/
structure Serializer where
  serializeMethod : SerialFn
  deserializeMethod : SerialFn
  serializeTag : Nat
  deserializeTag : Nat
deriving DecidableEq

/-- Association-list lookup, modelling Dictionary::TryGet (first match wins;
keys are unique in the real dictionary). -/
def tableGet {α β : Type} [DecidableEq α] (t : List (α × β)) (k : α) : Option β :=
  match t.find? (fun p => decide (p.1 = k)) with
  | some p => some p.2
  | none => none

/-- Association-list overwrite-or-insert, modelling Dictionary::operator[]
assignment (re-registration overwrites). -/
def tableSet {α β : Type} [DecidableEq α] (t : List (α × β)) (k : α) (v : β) : List (α × β) :=
  if t.any (fun p => decide (p.1 = k)) then
    t.map (fun p => if p.1 = k then (k, v) else p)
  else t ++ [(k, v)]

/-- Result of NetworkReplicator::InvokeSerializer: the returned failure flag
(the C++ function returns true exactly on failure), the serializer table after
the call (the interface fallback caches a synthesized entry), and which
method/tag pair was invoked, if any. -/
structure InvokeResult where
  failed : Bool
  table : List (ScriptingType × Serializer)
  invoked : Option (SerialFn × Nat)
deriving DecidableEq

/-- The serializer synthesized for a type that implements INetworkSerializable:
both thunks carry the interface vtable offset as their tag. -/
def interfaceSerializer (off : Nat) : Serializer :=
  ⟨SerialFn.ifaceSerialize, SerialFn.ifaceDeserialize, off, off⟩

/-- Method/tag selection in InvokeSerializer: index 0 for serialize, 1 for
deserialize. -/
def Serializer.pick (s : Serializer) (serialize : Bool) : SerialFn × Nat :=
  if serialize then (s.serializeMethod, s.serializeTag)
  else (s.deserializeMethod, s.deserializeTag)

/-- Core of NetworkReplicator::InvokeSerializer for a non-null type handle,
live instance and stream: explicit table entry first; otherwise the
INetworkSerializable interface, cached into the table; otherwise recurse into
the base type; a fully exhausted chain returns failure without invoking. -/
def invokeSerializerCore (serialize : Bool) (table : List (ScriptingType × Serializer)) :
    ScriptingType → InvokeResult
  | ScriptingType.root i iface =>
    match tableGet table (ScriptingType.root i iface) with
    | some s => ⟨false, table, some (s.pick serialize)⟩
    | none =>
      match iface with
      | some off =>
        ⟨false, table ++ [(ScriptingType.root i iface, interfaceSerializer off)],
          some ((interfaceSerializer off).pick serialize)⟩
      | none => ⟨true, table, none⟩
  | ScriptingType.derived i iface b =>
    match tableGet table (ScriptingType.derived i iface b) with
    | some s => ⟨false, table, some (s.pick serialize)⟩
    | none =>
      match iface with
      | some off =>
        ⟨false, table ++ [(ScriptingType.derived i iface b, interfaceSerializer off)],
          some ((interfaceSerializer off).pick serialize)⟩
      | none => invokeSerializerCore serialize table b

/-- NetworkReplicator::InvokeSerializer including the null guards: a null type
handle, null instance or null stream returns true (failure) immediately. -/
def InvokeSerializer (table : List (ScriptingType × Serializer))
    (typeHandle : Option ScriptingType) (instanceOk streamOk : Bool)
    (serialize : Bool) : InvokeResult :=
  match typeHandle with
  | none => ⟨true, table, none⟩
  | some t =>
    if instanceOk && streamOk then invokeSerializerCore serialize table t
    else ⟨true, table, none⟩

/-- NetworkReplicator::AddSerializer: no-op on a null handle, otherwise
overwrite-or-insert into the table. -/
def AddSerializer (table : List (ScriptingType × Serializer))
    (typeHandle : Option ScriptingType) (s : Serializer) :
    List (ScriptingType × Serializer) :=
  match typeHandle with
  | none => table
  | some t => tableSet table t s

/-- A whole base chain with neither an explicit registration nor an
INetworkSerializable implementation anywhere along it. -/
def chainUnhandled (table : List (ScriptingType × Serializer)) : ScriptingType → Bool
  | ScriptingType.root i iface =>
    (tableGet table (ScriptingType.root i iface)).isNone && iface.isNone
  | ScriptingType.derived i iface b =>
    (tableGet table (ScriptingType.derived i iface b)).isNone && iface.isNone &&
      chainUnhandled table b

/-- One registry entry, struct NetworkReplicatedObject.  The owning
ScriptingObjectReference is represented by `objectId` plus membership of that
id in `RepState.live`. -/
structure NetworkReplicatedObject where
  objectId : Nat
  parentId : Nat
  ownerClientId : Nat
  lastOwnerFrame : Nat
  role : NetworkObjectRole
  spawned : Bool
  invalidTypeWarn : Bool
deriving DecidableEq

/-- A NetworkClient as seen from NetworkManager::Clients: its client id and
whether its state is Connected. -/
structure NetClient where
  clientId : Nat
  connected : Bool
deriving DecidableEq

/-- Ambient engine state consumed by the replicator: NetworkManager fields,
the scene graph (structural parents of scene objects, 0 when there is none),
the Scripting type registry, prefab links, and the prefab instantiation
collaborator.  `spawnPrefabObject` is modelled from the spec: sections 1 and 6
treat the template/prefab instantiation service and the scene graph as
external collaborators, so the prefab branch of OnNetworkMessageObjectSpawn
(locating or spawning a prefab instance and finding the member with the given
prefab object id) is abstracted as a partial map from (PrefabId,
PrefabObjectID) to the backing object produced, none on the fatal setup
failures that make the handler abandon the spawn. -/
structure NetEnv where
  isClient : Bool
  localClientId : Nat
  serverClientId : Nat
  online : Bool
  clients : List NetClient
  frame : Nat
  parentOf : Nat → Nat
  typeOf : Nat → ScriptingType
  findType : Nat → Option ScriptingType
  prefabLinkOf : Nat → Option (Nat × Nat)
  spawnPrefabObject : Nat → Nat → Option Nat

/-- The replicator's mutable global state: the Objects hash set (as a list,
first match on ObjectId wins, mirroring Find on the id hash), the two pending
queues, IdsRemappingTable, the NewClients list (by client id), the serializer
table, and the set of live scripting objects. -/
structure RepState where
  objects : List NetworkReplicatedObject
  spawnQueue : List Nat
  despawnQueue : List Nat
  remap : List (Nat × Nat)
  newClients : List Nat
  serializers : List (ScriptingType × Serializer)
  live : List Nat
deriving DecidableEq

/-- Objects.Find(objectId). -/
def findEntry (objects : List NetworkReplicatedObject) (id : Nat) :
    Option NetworkReplicatedObject :=
  objects.find? (fun e => decide (e.objectId = id))

/-- In-place mutation of the entry with the given id (the C++ code mutates
through the pointer returned by Find/ResolveObject; ids are unique in the
real hash set). -/
def updateEntry (objects : List NetworkReplicatedObject) (id : Nat)
    (f : NetworkReplicatedObject → NetworkReplicatedObject) :
    List NetworkReplicatedObject :=
  objects.map (fun e => if e.objectId = id then f e else e)

/-- Objects.Remove for the entry with the given id. -/
def removeEntry (objects : List NetworkReplicatedObject) (id : Nat) :
    List NetworkReplicatedObject :=
  objects.filter (fun e => decide (e.objectId ≠ id))

/-- Dictionary::KeyOf on IdsRemappingTable: reverse lookup of the key mapping
to the given value, leaving the id unchanged when no mapping exists. -/
def keyOf (remap : List (Nat × Nat)) (v : Nat) : Nat :=
  match remap.find? (fun p => decide (p.2 = v)) with
  | some p => p.1
  | none => v

/-- Array::AddUnique. -/
def addUnique (l : List Nat) (x : Nat) : List Nat :=
  if l.contains x then l else l ++ [x]

/-- Wire payload NetworkMessageObjectReplicate (the opaque data payload and
DataSize are not modelled; the type name is a Nat naming the type). -/
structure NetworkMessageObjectReplicate where
  ownerFrame : Nat
  objectId : Nat
  parentId : Nat
  objectTypeName : Nat
deriving DecidableEq

/-- Wire payload NetworkMessageObjectSpawn; prefabId 0 encodes an invalid
(empty) prefab reference. -/
structure NetworkMessageObjectSpawn where
  objectId : Nat
  parentId : Nat
  prefabId : Nat
  prefabObjectId : Nat
  ownerClientId : Nat
  objectTypeName : Nat
deriving DecidableEq

/-- Wire payload NetworkMessageObjectDespawn. -/
structure NetworkMessageObjectDespawn where
  objectId : Nat
deriving DecidableEq

/-- Wire payload NetworkMessageObjectRole. -/
structure NetworkMessageObjectRole where
  objectId : Nat
  ownerClientId : Nat
deriving DecidableEq

/-- An ObjectRole message as emitted by SendObjectRoleMessage, with the
target connections it is sent to (client ids; a client peer sends to the
server only). -/
structure RoleSend where
  objectId : Nat
  ownerClientId : Nat
  targets : List Nat
deriving DecidableEq

/-- Messages emitted during NetworkReplicatorUpdate (the fixed 128-byte type
name and payload bytes are not modelled). -/
inductive WireMsg where
  | spawnMsg (objectId parentId prefabId prefabObjectId ownerClientId : Nat)
  | despawnMsg (objectId : Nat)
  | replicateMsg (ownerFrame objectId parentId : Nat)
deriving DecidableEq

/-- Which region of NetworkReplicatorUpdate emitted a message: the late-joiner
catch-up loop, the DespawnQueue flush, the SpawnQueue flush, or the brute-force
state broadcast. -/
inductive Phase where
  | catchup
  | despawnFlush
  | spawnFlush
  | broadcastState
deriving DecidableEq

/-- A message together with the update phase that emitted it. -/
structure TaggedMsg where
  phase : Phase
  msg : WireMsg
deriving DecidableEq

/-- Numeric order of the update phases as they appear in the tick body. -/
def phaseRank : Phase → Nat
  | .catchup => 0
  | .despawnFlush => 1
  | .spawnFlush => 2
  | .broadcastState => 3

/-- ResolveObject(Guid): direct lookup, then one indirection through
IdsRemappingTable. -/
def ResolveObject (s : RepState) (objectId : Nat) : Option NetworkReplicatedObject :=
  match findEntry s.objects objectId with
  | some e => some e
  | none =>
    match tableGet s.remap objectId with
    | some mapped => findEntry s.objects mapped
    | none => none

/-- ResolveObject(Guid, Guid, typeName): the context heuristic.  After a failed
direct resolve, remap the parent id, resolve the type name, and scan for the
first untouched (LastOwnerFrame == 0) entry under the same parent whose live
backing object has that type; on a hit the foreign id is memoized into
IdsRemappingTable. -/
def ResolveObjectCtx (env : NetEnv) (s : RepState)
    (objectId parentId objectTypeName : Nat) :
    Option (NetworkReplicatedObject × RepState) :=
  match ResolveObject s objectId with
  | some e => some (e, s)
  | none =>
    match env.findType objectTypeName with
    | none => none
    | some ty =>
      match s.objects.find? (fun item =>
          decide (item.lastOwnerFrame = 0) &&
          decide (item.parentId = (match tableGet s.remap parentId with
            | some p => p
            | none => parentId)) &&
          s.live.contains item.objectId && decide (env.typeOf item.objectId = ty)) with
      | some e => some (e, { s with remap := s.remap ++ [(objectId, e.objectId)] })
      | none => none

/-- SendObjectSpawnMessage: build the ObjectSpawn payload for an entry.  On a
client the object and parent ids are rewritten into the server's ids through
IdsRemappingTable (KeyOf); prefab fields come from the scene object's prefab
link when it has one. -/
def SendObjectSpawnMessage (env : NetEnv) (s : RepState)
    (item : NetworkReplicatedObject) : WireMsg :=
  let oid := if env.isClient then keyOf s.remap item.objectId else item.objectId
  let pid := if env.isClient then keyOf s.remap item.parentId else item.parentId
  let pf := match env.prefabLinkOf item.objectId with
    | some p => p
    | none => (0, 0)
  WireMsg.spawnMsg oid pid pf.1 pf.2 item.ownerClientId

/-- SendObjectRoleMessage: a client sends to the server; the server sends to
every Connected client except the excluded one. -/
def SendObjectRoleMessage (env : NetEnv) (item : NetworkReplicatedObject)
    (excluded : Option Nat) : RoleSend :=
  if env.isClient then
    { objectId := item.objectId, ownerClientId := item.ownerClientId,
      targets := [env.serverClientId] }
  else
    { objectId := item.objectId, ownerClientId := item.ownerClientId,
      targets := (env.clients.filter (fun c =>
        c.connected && (match excluded with
          | some x => decide (c.clientId ≠ x)
          | none => true))).map (fun c => c.clientId) }

/-- NetworkReplicator::AddObject.  No-op when the object is gone (null), the
manager is offline, or the object is already tracked.  Otherwise inserts an
entry owned by the server by default, with role derived from whether the local
peer is a client, ParentId from the explicit parent or the structural scene
parent (0 when there is none), LastOwnerFrame 0 and Spawned false. -/
def AddObject (env : NetEnv) (s : RepState) (objId : Nat) (parent : Option Nat) :
    RepState :=
  if s.live.contains objId = false ∨ env.online = false then s
  else if (findEntry s.objects objId).isSome then s
  else
    let parentId := match parent with
      | some p => p
      | none => env.parentOf objId
    { s with objects := s.objects ++
        [{ objectId := objId, parentId := parentId,
           ownerClientId := env.serverClientId, lastOwnerFrame := 0,
           role := if env.isClient then NetworkObjectRole.Replicated
                   else NetworkObjectRole.OwnedAuthoritative,
           spawned := false, invalidTypeWarn := false }] }

/-- NetworkReplicator::SpawnObject: skip when the object is already marked
spawned, otherwise add it (dedup) to the spawn queue. -/
def SpawnObject (env : NetEnv) (s : RepState) (objId : Nat) : RepState :=
  if s.live.contains objId = false ∨ env.online = false then s
  else
    match findEntry s.objects objId with
    | some item =>
      if item.spawned then s
      else { s with spawnQueue := addUnique s.spawnQueue objId }
    | none => { s with spawnQueue := addUnique s.spawnQueue objId }

/-- NetworkReplicator::DespawnObject: no-op unless the object is tracked,
marked spawned and owned by the local peer; on success queue the despawn,
remove any pending spawn intent and synchronously delete the local object
(DeleteNetworkObject). -/
def DespawnObject (env : NetEnv) (s : RepState) (objId : Nat) : RepState :=
  if s.live.contains objId = false ∨ env.online = false then s
  else
    match findEntry s.objects objId with
    | none => s
    | some item =>
      if item.spawned = false ∨ item.ownerClientId ≠ env.localClientId then s
      else
        { s with despawnQueue := s.despawnQueue ++ [objId],
                 spawnQueue := s.spawnQueue.erase objId,
                 live := s.live.erase objId }

/-- NetworkReplicator::SetObjectOwnership.  When the local peer owns the entry
and the owner actually changes, the CHECK macro rejects OwnedAuthoritative as
the new local role (CHECK logs and returns), otherwise the owner, reset
LastOwnerFrame = 1 and the new local role are written and an ObjectRole
message is sent.  When the local peer is not the owner only the local role may
change (again never to OwnedAuthoritative). -/
def SetObjectOwnership (env : NetEnv) (s : RepState) (objId : Nat)
    (ownerClientId : Nat) (localRole : NetworkObjectRole) :
    RepState × List RoleSend :=
  match findEntry s.objects objId with
  | none => (s, [])
  | some item =>
    if item.ownerClientId = env.localClientId then
      if item.ownerClientId ≠ ownerClientId then
        if localRole = NetworkObjectRole.OwnedAuthoritative then (s, [])
        else
          let item2 := { item with ownerClientId := ownerClientId,
                                   lastOwnerFrame := 1, role := localRole }
          ({ s with objects := updateEntry s.objects objId (fun _ => item2) },
           [SendObjectRoleMessage env item2 none])
      else (s, [])
    else
      if localRole = NetworkObjectRole.OwnedAuthoritative then (s, [])
      else
        ({ s with objects := (updateEntry s.objects objId
             (fun it => { it with role := localRole })) }, [])

/-- The owner-authority check shared by the three guarded handlers: the C++
condition `client && item.OwnerClientId != client->ClientId` — true (reject)
exactly when a sender is attached and differs from the recorded owner. -/
def senderMismatch (sender : Option Nat) (owner : Nat) : Bool :=
  match sender with
  | some c => decide (owner ≠ c)
  | none => false

/-- NetworkInternal::OnNetworkMessageObjectReplicate.  The Bool result records
whether the handler accepted the update and reached the deserialization
dispatch (InvokeSerializer); LastOwnerFrame is written before the dispatch,
and a failed dispatch latches InvalidTypeWarn. -/
def OnNetworkMessageObjectReplicate (env : NetEnv) (s : RepState)
    (sender : Option Nat) (msg : NetworkMessageObjectReplicate) :
    RepState × Bool :=
  match ResolveObjectCtx env s msg.objectId msg.parentId msg.objectTypeName with
  | none => (s, false)
  | some (e, s1) =>
    if s1.live.contains e.objectId = false then (s1, false)
    else if senderMismatch sender e.ownerClientId then (s1, false)
    else if e.role = NetworkObjectRole.OwnedAuthoritative then (s1, false)
    else if e.lastOwnerFrame ≥ msg.ownerFrame then (s1, false)
    else
      let s2 := { s1 with objects := (updateEntry s1.objects e.objectId
                    (fun it => { it with lastOwnerFrame := msg.ownerFrame })) }
      let r := InvokeSerializer s2.serializers (some (env.typeOf e.objectId)) true true false
      let s3 := { s2 with serializers := r.table }
      let s4 :=
        if r.failed then
          { s3 with objects := (updateEntry s3.objects e.objectId
                      (fun it => { it with invalidTypeWarn := true })) }
        else s3
      (s4, true)

/-- NetworkInternal::OnNetworkMessageObjectSpawn.  `sender` is the attached
NetworkClient's id (none when the message was delivered without a client, as
on a client peer receiving from the server); `freshId` is the id handed to a
newly constructed object (ScriptingObject::NewObject allocates a fresh Guid).
The structural re-parenting of the new scene object (SetParent) acts on the
out-of-scope scene graph and is not modelled. -/
def OnNetworkMessageObjectSpawn (env : NetEnv) (s : RepState) (sender : Option Nat)
    (msg : NetworkMessageObjectSpawn) (freshId : Nat) : RepState :=
  match ResolveObjectCtx env s msg.objectId msg.parentId msg.objectTypeName with
  | some (e, s1) =>
    { s1 with objects := updateEntry s1.objects e.objectId (fun item =>
        let item1 := { item with spawned := true }
        if env.isClient then
          let item2 := { item1 with ownerClientId := msg.ownerClientId }
          if item2.role = NetworkObjectRole.OwnedAuthoritative then
            { item2 with role := NetworkObjectRole.Replicated }
          else item2
        else item1) }
  | none =>
    let parent := ResolveObject s msg.parentId
    let objAcq : Option Nat :=
      if msg.prefabId ≠ 0 then
        env.spawnPrefabObject msg.prefabId msg.prefabObjectId
      else
        match env.findType msg.objectTypeName with
        | some _ => some freshId
        | none => none
    match objAcq with
    | none => s
    | some objId =>
      let item : NetworkReplicatedObject :=
        { objectId := objId,
          parentId := match parent with
            | some p => p.objectId
            | none => 0,
          ownerClientId := match sender with
            | some c => c
            | none => env.serverClientId,
          lastOwnerFrame := 0,
          role := NetworkObjectRole.Replicated,
          spawned := true,
          invalidTypeWarn := false }
      { s with live := if s.live.contains objId then s.live else s.live ++ [objId],
               objects := s.objects ++ [item],
               remap := s.remap ++ [(msg.objectId, objId)] }

/-- NetworkInternal::OnNetworkMessageObjectDespawn: reject when the target is
unresolved, its backing object is gone, it is not marked spawned, or the
attached sender is not the recorded owner; otherwise remove the entry and
delete the backing object. -/
def OnNetworkMessageObjectDespawn (_env : NetEnv) (s : RepState)
    (sender : Option Nat) (msg : NetworkMessageObjectDespawn) : RepState :=
  match ResolveObject s msg.objectId with
  | none => s
  | some e =>
    if s.live.contains e.objectId = false ∨ e.spawned = false then s
    else if senderMismatch sender e.ownerClientId then s
    else
      { s with objects := removeEntry s.objects e.objectId,
               live := s.live.erase e.objectId }

/-- NetworkInternal::OnNetworkMessageObjectRole: reject when the target is
unresolved, its backing object is gone, or the attached sender is not the
recorded owner; otherwise write the new owner with LastOwnerFrame = 1,
auto-upgrade to OwnedAuthoritative (resetting LastOwnerFrame to 0) when the
local peer gains ownership, auto-downgrade OwnedAuthoritative to Replicated
otherwise, and on the server re-broadcast the role message excluding the
sender. -/
def OnNetworkMessageObjectRole (env : NetEnv) (s : RepState) (sender : Option Nat)
    (msg : NetworkMessageObjectRole) : RepState × List RoleSend :=
  match ResolveObject s msg.objectId with
  | none => (s, [])
  | some e =>
    if s.live.contains e.objectId = false then (s, [])
    else if senderMismatch sender e.ownerClientId then (s, [])
    else
      let e1 := { e with ownerClientId := msg.ownerClientId, lastOwnerFrame := 1 }
      let e2 :=
        if e1.ownerClientId = env.localClientId then
          { e1 with role := NetworkObjectRole.OwnedAuthoritative, lastOwnerFrame := 0 }
        else if e1.role = NetworkObjectRole.OwnedAuthoritative then
          { e1 with role := NetworkObjectRole.Replicated }
        else e1
      ({ s with objects := updateEntry s.objects e.objectId (fun _ => e2) },
       if env.isClient then [] else [SendObjectRoleMessage env e2 sender])

/-- Connections collected for replication: every Connected client of
NetworkManager::Clients (by client id). -/
def connectedTargets (env : NetEnv) : List Nat :=
  (env.clients.filter (fun c => c.connected)).map (fun c => c.clientId)

/-- Late-joiner catch-up messages: one ObjectSpawn per tracked entry whose
backing object is live and marked spawned, targeted at the new clients. -/
def catchupMsgs (env : NetEnv) (s : RepState) : List TaggedMsg :=
  (s.objects.filter (fun it => s.live.contains it.objectId && it.spawned)).map
    (fun it => ⟨Phase.catchup, SendObjectSpawnMessage env s it⟩)

/-- DespawnQueue flush messages: one ObjectDespawn per queued id, remapped to
server ids on a client. -/
def despawnMsgs (env : NetEnv) (s : RepState) : List TaggedMsg :=
  s.despawnQueue.map (fun e =>
    ⟨Phase.despawnFlush,
     WireMsg.despawnMsg (if env.isClient then keyOf s.remap e else e)⟩)

/-- One iteration of the SpawnQueue flush: late AddObject for objects never
registered, skip entries that vanished, skip objects the local peer does not
own authoritatively, otherwise send the spawn message and mark the entry
spawned. -/
def spawnFlushStep (env : NetEnv) (acc : RepState × List TaggedMsg) (objId : Nat) :
    RepState × List TaggedMsg :=
  let s := acc.1
  let s1 := match findEntry s.objects objId with
    | some _ => s
    | none => AddObject env s objId none
  match findEntry s1.objects objId with
  | none => (s1, acc.2)
  | some item =>
    if item.ownerClientId ≠ env.localClientId ∨
        item.role ≠ NetworkObjectRole.OwnedAuthoritative then (s1, acc.2)
    else
      ({ s1 with objects := (updateEntry s1.objects objId
           (fun it => { it with spawned := true })) },
       acc.2 ++ [⟨Phase.spawnFlush, SendObjectSpawnMessage env s1 item⟩])

/-- The whole SpawnQueue flush; the queue is drained (cleared) by it. -/
def spawnFlushRun (env : NetEnv) (s : RepState) : RepState × List TaggedMsg :=
  s.spawnQueue.foldl (spawnFlushStep env) ({ s with spawnQueue := [] }, [])

/-- One iteration of the brute-force state broadcast: lazily reap entries
whose backing object is gone, serialize the rest through InvokeSerializer
(latching InvalidTypeWarn and skipping on failure), otherwise emit the
ObjectReplicate message stamped with the current network frame. -/
def broadcastStep (env : NetEnv) (acc : RepState × List TaggedMsg)
    (item : NetworkReplicatedObject) : RepState × List TaggedMsg :=
  let s := acc.1
  if s.live.contains item.objectId = false then
    ({ s with objects := removeEntry s.objects item.objectId }, acc.2)
  else
    let r := InvokeSerializer s.serializers (some (env.typeOf item.objectId)) true true true
    let s1 := { s with serializers := r.table }
    if r.failed then
      ({ s1 with objects := (updateEntry s1.objects item.objectId
           (fun it => { it with invalidTypeWarn := true })) }, acc.2)
    else
      (s1, acc.2 ++ [⟨Phase.broadcastState,
        WireMsg.replicateMsg env.frame item.objectId item.parentId⟩])

/-- The brute-force broadcast loop over every tracked entry (server only). -/
def broadcastPass (env : NetEnv) (s : RepState) : RepState × List TaggedMsg :=
  s.objects.foldl (broadcastStep env) (s, [])

/-- NetworkInternal::NetworkReplicatorUpdate, the per-tick driver: early exit
on an empty registry; late-joiner catch-up (server with pending NewClients);
early exit when a server has no connected client to send to; DespawnQueue
flush; SpawnQueue flush; brute-force state broadcast (server only).  Returns
the post-tick state and the emitted messages tagged with their phase. -/
def NetworkReplicatorUpdate (env : NetEnv) (s : RepState) :
    RepState × List TaggedMsg :=
  if s.objects.isEmpty then (s, [])
  else
    let p1 : RepState × List TaggedMsg :=
      if env.isClient = false ∧ s.newClients ≠ [] then
        ({ s with newClients := [] }, catchupMsgs env s)
      else (s, [])
    if env.isClient = false ∧ connectedTargets env = [] then p1
    else
      let m2 := despawnMsgs env p1.1
      let s2 := { p1.1 with despawnQueue := [] }
      let p3 := spawnFlushRun env s2
      let p4 : RepState × List TaggedMsg :=
        if env.isClient then (p3.1, []) else broadcastPass env p3.1
      (p4.1, p1.2 ++ m2 ++ p3.2 ++ p4.2)

/-- Feed a sequence of ObjectReplicate messages (differing only in OwnerFrame)
to the handler, collecting the accepted/rejected flag of each. -/
def ReplicateSeq (env : NetEnv) (sender : Option Nat)
    (objectId parentId objectTypeName : Nat) (s : RepState)
    (frames : List Nat) : RepState × List Bool :=
  frames.foldl
    (fun acc f =>
      let r := OnNetworkMessageObjectReplicate env acc.1 sender
        ⟨f, objectId, parentId, objectTypeName⟩
      (r.1, acc.2 ++ [r.2]))
    (s, [])

/-- The spec's role/ownership invariant for one entry: role is
OwnedAuthoritative exactly when the local peer is the recorded owner. -/
def roleInv (env : NetEnv) (e : NetworkReplicatedObject) : Prop :=
  e.role = NetworkObjectRole.OwnedAuthoritative ↔ e.ownerClientId = env.localClientId

instance (env : NetEnv) (e : NetworkReplicatedObject) : Decidable (roleInv env e) := by
  unfold roleInv
  infer_instance

/-- Well-formedness of the ambient network identity: a client peer's local id
differs from the server's distinguished client id, and the server's local id
is the server client id. -/
def envWF (env : NetEnv) : Prop :=
  (env.isClient = true → env.serverClientId ≠ env.localClientId) ∧
  (env.isClient = false → env.serverClientId = env.localClientId)

instance (env : NetEnv) : Decidable (envWF env) := by
  unfold envWF
  infer_instance

/-- The entry the ObjectRole handler writes on acceptance: new owner, counter
reset to 0 when the local peer gains ownership and 1 otherwise, role upgraded
or downgraded to match. -/
def roleUpdatedEntry (env : NetEnv) (e : NetworkReplicatedObject) (newOwner : Nat) :
    NetworkReplicatedObject :=
  { e with ownerClientId := newOwner,
           lastOwnerFrame := if newOwner = env.localClientId then 0 else 1,
           role := if newOwner = env.localClientId then NetworkObjectRole.OwnedAuthoritative
                   else if e.role = NetworkObjectRole.OwnedAuthoritative then
                     NetworkObjectRole.Replicated
                   else e.role }

/-- An empty replicator state. -/
def emptyState : RepState :=
  { objects := [], spawnQueue := [], despawnQueue := [], remap := [],
    newClients := [], serializers := [], live := [] }

/-- A sample server environment: the server's local id is the server client
id 0, one connected client with id 1, every object of the plain unserializable
type. -/
def baseEnv : NetEnv :=
  { isClient := false, localClientId := 0, serverClientId := 0, online := true,
    clients := [⟨1, true⟩], frame := 3,
    parentOf := fun _ => 0,
    typeOf := fun _ => ScriptingType.root 1 none,
    findType := fun n => if n = 10 then some (ScriptingType.root 1 none) else none,
    prefabLinkOf := fun _ => none,
    spawnPrefabObject := fun _ _ => none }

/-- A sample client environment with local client id 2. -/
def clientEnv : NetEnv :=
  { baseEnv with isClient := true, localClientId := 2, clients := [] }

/-- A client-owned entry on the client peer with local id 2; the role
invariant holds for it. -/
def c1entry : NetworkReplicatedObject :=
  { objectId := 1, parentId := 0, ownerClientId := 2, lastOwnerFrame := 0,
    role := NetworkObjectRole.OwnedAuthoritative, spawned := true,
    invalidTypeWarn := false }

/-- Client-side state holding `c1entry`; object 7 exists but is untracked. -/
def c1s : RepState := { emptyState with objects := [c1entry], live := [1, 7] }

/-- The C1 run: the client handles a Spawn for its own object naming the
local peer (client id 2) as owner. -/
def c1res : RepState :=
  OnNetworkMessageObjectSpawn clientEnv c1s none ⟨1, 0, 0, 0, 2, 10⟩ 99

/-- A replicated entry owned by remote client 4. -/
def c2Entry : NetworkReplicatedObject :=
  { objectId := 1, parentId := 0, ownerClientId := 4, lastOwnerFrame := 0,
    role := NetworkObjectRole.Replicated, spawned := true,
    invalidTypeWarn := false }

/-- Client-side state holding `c2Entry` with its backing object live. -/
def c2State : RepState := { emptyState with objects := [c2Entry], live := [1] }

/-- The P3 scenario: StateUpdate sequences 5, 3, 7 from the owner. -/
def c2Run : RepState × List Bool :=
  ReplicateSeq clientEnv (some 4) 1 0 10 c2State [5, 3, 7]

/-- Initial state for the C5 scenario: object 1 is alive and untracked. -/
def c5s0 : RepState := { emptyState with live := [1] }

/-- Track object 1 (AddObject), queue a spawn intent, then despawn it in the
same tick before the flush. -/
def c5s1 : RepState := AddObject baseEnv c5s0 1 none

def c5s2 : RepState := SpawnObject baseEnv c5s1 1

def c5s3 : RepState := DespawnObject baseEnv c5s2 1

/-- The tick following the C5 scenario. -/
def c5run : RepState × List TaggedMsg := NetworkReplicatorUpdate baseEnv c5s3

/-- A spawned, server-owned entry used in the C5 cancellation witness. -/
def c5wEntry : NetworkReplicatedObject :=
  { objectId := 1, parentId := 0, ownerClientId := 0, lastOwnerFrame := 0,
    role := NetworkObjectRole.OwnedAuthoritative, spawned := true,
    invalidTypeWarn := false }

def c5w : RepState :=
  { emptyState with objects := [c5wEntry], live := [1], spawnQueue := [1] }

/-- A spawned, server-owned entry used in the C6 witness run. -/
def c6Entry : NetworkReplicatedObject :=
  { objectId := 3, parentId := 0, ownerClientId := 0, lastOwnerFrame := 0,
    role := NetworkObjectRole.OwnedAuthoritative, spawned := true,
    invalidTypeWarn := false }

/-- Server state with a pending late joiner and a queued despawn, so one tick
emits both a catch-up spawn and a queued despawn message. -/
def c6s : RepState :=
  { emptyState with
    objects := [c6Entry], live := [3], newClients := [1], despawnQueue := [4] }

/-- The C7 run: a client handles a Spawn for unresolvable id 5 carrying
owner_client_id 7, with no sender attached (server-originated); the new
object gets fresh id 42. -/
def c7res : RepState :=
  OnNetworkMessageObjectSpawn clientEnv emptyState none ⟨5, 0, 0, 0, 7, 10⟩ 42

/-- An empty registry but a non-empty spawn queue (reachable: SpawnObject
queues objects that were never passed to AddObject). -/
def c8sA : RepState := { emptyState with spawnQueue := [7], live := [7] }

/-- A server environment with zero connected clients. -/
def c8EnvB : NetEnv := { baseEnv with clients := [] }

def c8entry : NetworkReplicatedObject :=
  { objectId := 3, parentId := 0, ownerClientId := 0, lastOwnerFrame := 0,
    role := NetworkObjectRole.OwnedAuthoritative, spawned := true,
    invalidTypeWarn := false }

/-- Non-empty registry with a queued despawn. -/
def c8sB : RepState :=
  { emptyState with objects := [c8entry], despawnQueue := [9], live := [3] }

/-- Server-side state with a server-owned entry, used for C9. -/
def c9s : RepState :=
  { emptyState with objects := [c8entry], live := [3] }

/-- A base type carrying an explicit registration in the C4 witness. -/
def tyBase : ScriptingType := ScriptingType.root 1 none

/-- A type that both declares the serialization capability (vtable offset 8)
and derives from `tyBase`. -/
def tyBoth : ScriptingType := ScriptingType.derived 2 (some 8) tyBase

/-- A type with neither registration nor capability, deriving from `tyBase`. -/
def tyDer : ScriptingType := ScriptingType.derived 3 none tyBase

/-- A user-registered serializer pair. -/
def regSer : Serializer := ⟨SerialFn.user 5, SerialFn.user 6, 0, 0⟩

/-- Table with an explicit registration for `tyBoth`. -/
def tbl1 : List (ScriptingType × Serializer) := AddSerializer [] (some tyBoth) regSer

/-- Table with an explicit registration for the base type only. -/
def tblB : List (ScriptingType × Serializer) := AddSerializer [] (some tyBase) regSer

end NetRep

namespace NetRep

/- Helper lemmas about the list-level registry operations. -/

/-- An entry found by id indeed carries that id. -/
theorem findEntry_some_id {objects : List NetworkReplicatedObject} {id : Nat}
    {e : NetworkReplicatedObject} (h : findEntry objects id = some e) :
    e.objectId = id := by
  unfold findEntry at h
  have h2 := List.find?_some h
  simpa using h2

/-- Updating the entry with a given id (by an id-preserving function) updates
the result of a subsequent lookup accordingly. -/
theorem findEntry_updateEntry {objects : List NetworkReplicatedObject} {id : Nat}
    {e : NetworkReplicatedObject} {f : NetworkReplicatedObject → NetworkReplicatedObject}
    (h : findEntry objects id = some e)
    (hf : ∀ x, x.objectId = id → (f x).objectId = id) :
    findEntry (updateEntry objects id f) id = some (f e) := by
  induction objects with
  | nil => simp [findEntry] at h
  | cons a t ih =>
    by_cases ha : a.objectId = id
    · unfold findEntry at h
      rw [List.find?_cons_of_pos _ (by simpa using ha)] at h
      have hae : a = e := by injection h
      subst hae
      unfold updateEntry findEntry
      simp only [List.map_cons, if_pos ha]
      exact List.find?_cons_of_pos _ (by simpa using hf a ha)
    · unfold findEntry at h
      rw [List.find?_cons_of_neg _ (by simpa using ha)] at h
      unfold updateEntry findEntry
      simp only [List.map_cons, if_neg ha]
      rw [List.find?_cons_of_neg _ (by simpa using ha)]
      exact ih h

/-- With unique ids, any member carrying the looked-up id is the found entry. -/
theorem findEntry_unique {objects : List NetworkReplicatedObject} {id : Nat}
    {e : NetworkReplicatedObject}
    (hnd : (objects.map (fun x => x.objectId)).Nodup)
    (h : findEntry objects id = some e) :
    ∀ x ∈ objects, x.objectId = id → x = e := by
  induction objects with
  | nil => simp
  | cons a t ih =>
    simp only [List.map_cons, List.nodup_cons] at hnd
    intro x hx hxid
    by_cases ha : a.objectId = id
    · unfold findEntry at h
      rw [List.find?_cons_of_pos _ (by simpa using ha)] at h
      have hae : a = e := by injection h
      subst hae
      rcases List.mem_cons.mp hx with rfl | hxt
      · rfl
      · exfalso
        have hmem : a.objectId ∈ t.map (fun y => y.objectId) := by
          rw [ha, ← hxid]
          exact List.mem_map_of_mem _ hxt
        exact hnd.1 hmem
    · unfold findEntry at h
      rw [List.find?_cons_of_neg _ (by simpa using ha)] at h
      rcases List.mem_cons.mp hx with rfl | hxt
      · exact absurd hxid ha
      · exact ih hnd.2 h x hxt hxid

/-- Appending a fresh mapping to the remapping table makes it resolvable. -/
theorem tableGet_append_fresh {α β : Type} [DecidableEq α]
    (t : List (α × β)) (k : α) (v : β) (h : tableGet t k = none) :
    tableGet (t ++ [(k, v)]) k = some v := by
  induction t with
  | nil => simp [tableGet, List.find?]
  | cons a t ih =>
    by_cases ha : a.1 = k
    · exfalso
      unfold tableGet at h
      rw [List.find?_cons_of_pos _ (by simpa using ha)] at h
      simp at h
    · unfold tableGet at h ⊢
      rw [List.cons_append]
      rw [List.find?_cons_of_neg _ (by simpa using ha)] at h ⊢
      exact ih h

/-- The context resolver only ever touches the remapping table: every other
state component survives it unchanged. -/
theorem resolveCtx_frame {env : NetEnv} {s : RepState} {a b c : Nat}
    {e : NetworkReplicatedObject} {s1 : RepState}
    (h : ResolveObjectCtx env s a b c = some (e, s1)) :
    s1.objects = s.objects ∧ s1.live = s.live ∧ s1.spawnQueue = s.spawnQueue ∧
    s1.despawnQueue = s.despawnQueue ∧ s1.serializers = s.serializers ∧
    s1.newClients = s.newClients := by
  unfold ResolveObjectCtx at h
  split at h
  · simp only [Option.some.injEq, Prod.mk.injEq] at h
    rw [← h.2]
    exact ⟨rfl, rfl, rfl, rfl, rfl, rfl⟩
  · split at h
    · exact absurd h (by simp)
    · split at h
      · simp only [Option.some.injEq, Prod.mk.injEq] at h
        rw [← h.2]
        exact ⟨rfl, rfl, rfl, rfl, rfl, rfl⟩
      · exact absurd h (by simp)

/-- The direct resolver returns an entry findable under its own id. -/
theorem resolveObject_findEntry {s : RepState} {id : Nat}
    {e : NetworkReplicatedObject} (h : ResolveObject s id = some e) :
    findEntry s.objects e.objectId = some e := by
  unfold ResolveObject at h
  split at h
  · rename_i heq
    cases h
    rw [findEntry_some_id heq]
    exact heq
  · split at h
    · rw [findEntry_some_id h]
      exact h
    · exact absurd h (by simp)

/- C4: serializer dispatch fallback order. -/

/-- A base chain carrying no registration and no capability anywhere makes
InvokeSerializer fail with the table unchanged and nothing invoked. -/
theorem invoke_unhandled (b : Bool) (table : List (ScriptingType × Serializer)) :
    ∀ t : ScriptingType, chainUnhandled table t = true →
      invokeSerializerCore b table t = ⟨true, table, none⟩ := by
  intro t
  induction t with
  | root i iface =>
    intro h
    simp only [chainUnhandled, Bool.and_eq_true, Option.isNone_iff_eq_none] at h
    obtain ⟨h1, h2⟩ := h
    subst h2
    simp [invokeSerializerCore, h1]
  | derived i iface bse ih =>
    intro h
    simp only [chainUnhandled, Bool.and_eq_true, Option.isNone_iff_eq_none] at h
    obtain ⟨⟨h1, h2⟩, h3⟩ := h
    subst h2
    simp [invokeSerializerCore, h1, ih h3]

/-- C4: InvokeSerializer resolves in this exact order: an explicit table entry
wins (even when the type also implements the capability interface); otherwise
a declared capability synthesizes an entry, caches it in the table and uses
it; otherwise the lookup recurses into the declared base type; and an
exhausted chain returns failure (true) without invoking anything and without
touching the table. -/
theorem C4_serializer_fallback_order
    (table : List (ScriptingType × Serializer)) (t : ScriptingType) (b : Bool) :
    (∀ s, tableGet table t = some s →
        invokeSerializerCore b table t = ⟨false, table, some (s.pick b)⟩)
    ∧ (∀ off, tableGet table t = none → t.interfaceOffset = some off →
        invokeSerializerCore b table t =
          ⟨false, table ++ [(t, interfaceSerializer off)],
            some ((interfaceSerializer off).pick b)⟩)
    ∧ (∀ tb, tableGet table t = none → t.interfaceOffset = none → t.base = some tb →
        invokeSerializerCore b table t = invokeSerializerCore b table tb)
    ∧ (tableGet table t = none → t.interfaceOffset = none → t.base = none →
        invokeSerializerCore b table t = ⟨true, table, none⟩)
    ∧ (chainUnhandled table t = true →
        invokeSerializerCore b table t = ⟨true, table, none⟩) := by
  refine ⟨?_, ?_, ?_, ?_, invoke_unhandled b table t⟩
  · intro s hs
    cases t with
    | root i iface => simp [invokeSerializerCore, hs]
    | derived i iface bse => simp [invokeSerializerCore, hs]
  · intro off hnone hoff
    cases t with
    | root i iface =>
      simp only [ScriptingType.interfaceOffset] at hoff
      subst hoff
      simp [invokeSerializerCore, hnone]
    | derived i iface bse =>
      simp only [ScriptingType.interfaceOffset] at hoff
      subst hoff
      simp [invokeSerializerCore, hnone]
  · intro tb hnone hoff hbase
    cases t with
    | root i iface => simp [ScriptingType.base] at hbase
    | derived i iface bse =>
      simp only [ScriptingType.interfaceOffset] at hoff
      simp only [ScriptingType.base, Option.some.injEq] at hbase
      subst hoff
      subst hbase
      simp [invokeSerializerCore, hnone]
  · intro hnone hoff hbase
    cases t with
    | root i iface =>
      simp only [ScriptingType.interfaceOffset] at hoff
      subst hoff
      simp [invokeSerializerCore, hnone]
    | derived i iface bse => simp [ScriptingType.base] at hbase

/-- Witness for C4: the P6 instances — a type with both a registration and a
capability uses the registration; in a fresh table it falls through to the
capability (caching it); a bare type with a registered base uses the base's
serializer; and an unhandled chain fails. -/
theorem C4_serializer_fallback_order_witness :
    invokeSerializerCore true tbl1 tyBoth = ⟨false, tbl1, some (regSer.pick true)⟩ ∧
    invokeSerializerCore true [] tyBoth =
      ⟨false, [(tyBoth, interfaceSerializer 8)],
        some ((interfaceSerializer 8).pick true)⟩ ∧
    invokeSerializerCore true tblB tyDer = ⟨false, tblB, some (regSer.pick true)⟩ ∧
    invokeSerializerCore true [] tyDer = ⟨true, [], none⟩ := by
  refine ⟨?_, ?_, ?_, ?_⟩
  · exact (C4_serializer_fallback_order tbl1 tyBoth true).1 regSer (by decide)
  · have h := (C4_serializer_fallback_order [] tyBoth true).2.1 8 (by decide) (by decide)
    simpa using h
  · have h := (C4_serializer_fallback_order tblB tyDer true).2.2.1 tyBase (by decide)
      (by decide) (by decide)
    rw [h]
    exact (C4_serializer_fallback_order tblB tyBase true).1 regSer (by decide)
  · exact (C4_serializer_fallback_order [] tyDer true).2.2.2.2 (by decide)

/-- Helper: updating the found entry by an id-preserving constant. -/
theorem findEntry_updateEntry_eq {objects : List NetworkReplicatedObject} {id : Nat}
    {e : NetworkReplicatedObject} (h : findEntry objects id = some e)
    {v : NetworkReplicatedObject} (hv : v.objectId = id) :
    findEntry (updateEntry objects id (fun _ => v)) id = some v :=
  findEntry_updateEntry h (fun _ _ => hv)

/-- C1 counterexample: on a client with local id 2, an entry owned by the
local peer with role OwnedAuthoritative (so the invariant holds before)
handled by a Spawn message carrying owner_client_id 2 ends with owner 2 and
role Replicated — the Spawn handler never upgrades the role, so the claimed
iff invariant is broken after the handler completes. -/
theorem C1_role_invariant_counterexample :
    roleInv clientEnv c1entry ∧
    findEntry c1res.objects 1 =
      some { objectId := 1, parentId := 0, ownerClientId := 2, lastOwnerFrame := 0,
             role := NetworkObjectRole.Replicated, spawned := true,
             invalidTypeWarn := false } ∧
    ¬ roleInv clientEnv
      { objectId := 1, parentId := 0, ownerClientId := 2, lastOwnerFrame := 0,
        role := NetworkObjectRole.Replicated, spawned := true,
        invalidTypeWarn := false } :=
  ⟨by decide, by decide, by decide⟩

/-- C5 counterexample: queue a spawn intent for a tracked but not-yet-spawned
object and despawn it before the flush — the despawn call is a no-op (state
unchanged, object still alive), no Despawn message is ever sent and exactly
one Spawn message goes out at the next tick, contradicting the claim. -/
theorem C5_despawn_pending_spawn_counterexample :
    c5s3 = c5s2 ∧
    c5run.2.filter (fun m => match m.msg with
      | WireMsg.despawnMsg _ => true
      | _ => false) = [] ∧
    c5run.2 = [⟨Phase.spawnFlush, WireMsg.spawnMsg 1 0 0 0 0⟩] ∧
    c5s3.live.contains 1 = true :=
  ⟨by decide, by decide, by decide, by decide⟩

/-- C7 counterexample: a client handling Spawn{object_id=5, owner_client_id=7}
for an unresolvable id with no sender attached registers the new entry with
OwnerClientId = 0 (the server's client id), not 7 — the message's
owner_client_id field is ignored for newly created entries.  Role and the
remapping of 5 to the fresh canonical id 42 behave as claimed. -/
theorem C7_unresolvable_spawn_counterexample :
    c7res.objects.map (fun e => e.ownerClientId) = [0] ∧
    (0 : Nat) ≠ 7 ∧
    c7res.objects.map (fun e => e.role) = [NetworkObjectRole.Replicated] ∧
    tableGet c7res.remap 5 = some 42 ∧ (42 : Nat) ≠ 5 :=
  ⟨by decide, by decide, by decide, by decide, by decide⟩

/-- C8 counterexample: with an empty registry the update returns before
draining the queues (spawn queue [7] survives), and a server with zero
connected clients early-exits before the flushes (despawn queue [9]
survives) — the queues are not empty at the end of the tick. -/
theorem C8_queues_drained_counterexample :
    (NetworkReplicatorUpdate baseEnv c8sA).1.spawnQueue = [7] ∧
    (NetworkReplicatorUpdate c8EnvB c8sB).1.despawnQueue = [9] :=
  ⟨by decide, by decide⟩

/-- C9 counterexample: the owner transferring ownership away via
SetObjectOwnership with local role None leaves the entry's role None, not
Replicated as the claim's "downgraded to Replicated" requires. -/
theorem C9_ownership_change_counterexample :
    (findEntry (SetObjectOwnership baseEnv c9s 3 5 NetworkObjectRole.None).1.objects 3).map
        (fun x => x.role) = some NetworkObjectRole.None ∧
    NetworkObjectRole.None ≠ NetworkObjectRole.Replicated :=
  ⟨by decide, by decide⟩

/-- C2: an inbound StateUpdate whose target resolves with a live backing
object, whose sender is the recorded owner and whose local role is not
OwnedAuthoritative is applied — the deserialization dispatch runs and
LastOwnerFrame is set to the message's sequence — exactly when the sequence
is strictly greater than the stored LastOwnerFrame; a message with a sequence
less than or equal leaves the state unchanged.  Includes the P3 instance:
sequences 5, 3, 7 give accepted/rejected/accepted with final
LastOwnerFrame 7. -/
theorem C2_stale_rejection :
    (∀ (env : NetEnv) (s : RepState) (msg : NetworkMessageObjectReplicate)
        (e : NetworkReplicatedObject) (s1 : RepState),
      ResolveObjectCtx env s msg.objectId msg.parentId msg.objectTypeName = some (e, s1) →
      findEntry s1.objects e.objectId = some e →
      s1.live.contains e.objectId = true →
      e.role ≠ NetworkObjectRole.OwnedAuthoritative →
      (((OnNetworkMessageObjectReplicate env s (some e.ownerClientId) msg).2 = true ∧
        (findEntry (OnNetworkMessageObjectReplicate env s (some e.ownerClientId) msg).1.objects
            e.objectId).map (fun x => x.lastOwnerFrame) = some msg.ownerFrame)
        ↔ e.lastOwnerFrame < msg.ownerFrame) ∧
      (msg.ownerFrame ≤ e.lastOwnerFrame →
        OnNetworkMessageObjectReplicate env s (some e.ownerClientId) msg = (s1, false))) ∧
    (c2Run.2 = [true, false, true] ∧
      (findEntry c2Run.1.objects 1).map (fun x => x.lastOwnerFrame) = some 7) := by
  constructor
  · intro env s msg e s1 hres hfind halive hrole
    have hc1 : ¬ (s1.live.contains e.objectId = false) := by rw [halive]; simp
    have hsm : ¬ (senderMismatch (some e.ownerClientId) e.ownerClientId = true) := by
      simp [senderMismatch]
    by_cases hlt : e.lastOwnerFrame < msg.ownerFrame
    · have hc4 : ¬ (e.lastOwnerFrame ≥ msg.ownerFrame) := by omega
      refine ⟨⟨fun _ => hlt, fun _ => ?_⟩, fun hle => absurd hle hc4⟩
      simp only [OnNetworkMessageObjectReplicate, hres]
      rw [if_neg hc1, if_neg hsm, if_neg hrole, if_neg hc4]
      refine ⟨rfl, ?_⟩
      have h1 := findEntry_updateEntry hfind
        (f := fun it => { it with lastOwnerFrame := msg.ownerFrame })
        (fun _ hx => hx)
      dsimp only
      split
      · have h2 := findEntry_updateEntry h1
          (f := fun it => { it with invalidTypeWarn := true })
          (fun _ hx => hx)
        rw [h2]
        rfl
      · rw [h1]
        rfl
    · have hstale : OnNetworkMessageObjectReplicate env s (some e.ownerClientId) msg
          = (s1, false) := by
        simp only [OnNetworkMessageObjectReplicate, hres]
        rw [if_neg hc1, if_neg hsm, if_neg hrole,
          if_pos (by omega : e.lastOwnerFrame ≥ msg.ownerFrame)]
      refine ⟨⟨fun hf => ?_, fun h => absurd h hlt⟩, fun _ => hstale⟩
      rw [hstale] at hf
      simp at hf
  · exact ⟨by decide, by decide⟩

/-- Witness for C2: the first StateUpdate of the P3 scenario (sequence 5
against stored sequence 0 on `c2Entry`) is accepted and stores 5. -/
theorem C2_stale_rejection_witness :
    ((OnNetworkMessageObjectReplicate clientEnv c2State (some c2Entry.ownerClientId)
        ⟨5, 1, 0, 10⟩).2 = true ∧
      (findEntry (OnNetworkMessageObjectReplicate clientEnv c2State
          (some c2Entry.ownerClientId) ⟨5, 1, 0, 10⟩).1.objects
          c2Entry.objectId).map (fun x => x.lastOwnerFrame) = some 5)
      ↔ c2Entry.lastOwnerFrame < 5 :=
  ((C2_stale_rejection).1 clientEnv c2State ⟨5, 1, 0, 10⟩ c2Entry c2State
    (by decide) (by decide) (by decide) (by decide)).1

/-- C3: a StateUpdate, Despawn or OwnershipChange message whose attached
sender differs from the target's recorded owner leaves the registry, the live
set and the entry untouched (the StateUpdate resolver may only memoize an id
remapping), removes nothing and destroys nothing. -/
theorem C3_authority_rejection (env : NetEnv) (s : RepState) (c : Nat)
    (msgR : NetworkMessageObjectReplicate) (msgD : NetworkMessageObjectDespawn)
    (msgO : NetworkMessageObjectRole) :
    (∀ e s1,
      ResolveObjectCtx env s msgR.objectId msgR.parentId msgR.objectTypeName = some (e, s1) →
      e.ownerClientId ≠ c →
      (OnNetworkMessageObjectReplicate env s (some c) msgR).1.objects = s.objects ∧
      (OnNetworkMessageObjectReplicate env s (some c) msgR).1.live = s.live ∧
      (OnNetworkMessageObjectReplicate env s (some c) msgR).2 = false) ∧
    (∀ e, ResolveObject s msgD.objectId = some e → e.ownerClientId ≠ c →
      OnNetworkMessageObjectDespawn env s (some c) msgD = s) ∧
    (∀ e, ResolveObject s msgO.objectId = some e → e.ownerClientId ≠ c →
      OnNetworkMessageObjectRole env s (some c) msgO = (s, [])) := by
  refine ⟨?_, ?_, ?_⟩
  · intro e s1 hres hne
    obtain ⟨ho, hl, _, _, _, _⟩ := resolveCtx_frame hres
    have hsm : senderMismatch (some c) e.ownerClientId = true := by
      simp [senderMismatch, hne]
    by_cases hc1 : s1.live.contains e.objectId = false
    · simp only [OnNetworkMessageObjectReplicate, hres]
      rw [if_pos hc1]
      exact ⟨ho, hl, rfl⟩
    · simp only [OnNetworkMessageObjectReplicate, hres]
      rw [if_neg hc1, if_pos hsm]
      exact ⟨ho, hl, rfl⟩
  · intro e hres hne
    have hsm : senderMismatch (some c) e.ownerClientId = true := by
      simp [senderMismatch, hne]
    simp only [OnNetworkMessageObjectDespawn, hres]
    by_cases hg : s.live.contains e.objectId = false ∨ e.spawned = false
    · rw [if_pos hg]
    · rw [if_neg hg, if_pos hsm]
  · intro e hres hne
    have hsm : senderMismatch (some c) e.ownerClientId = true := by
      simp [senderMismatch, hne]
    simp only [OnNetworkMessageObjectRole, hres]
    by_cases hg : s.live.contains e.objectId = false
    · rw [if_pos hg]
    · rw [if_neg hg, if_pos hsm]

/-- Witness for C3: client 6 (not the owner, which is 4) fails to despawn
`c2Entry`. -/
theorem C3_authority_rejection_witness :
    OnNetworkMessageObjectDespawn clientEnv c2State (some 6) ⟨1⟩ = c2State :=
  (C3_authority_rejection clientEnv c2State 6 ⟨0, 0, 0, 0⟩ ⟨1⟩ ⟨0, 0⟩).2.1
    c2Entry (by decide) (by decide)

/-- C10: with no sender attached (null client), the owner-authority check is
bypassed in all three guarded handlers: a StateUpdate is applied, a Despawn
removes the entry and destroys the object, and an OwnershipChange rewrites
the owner — whatever the entry's recorded OwnerClientId is. -/
theorem C10_null_sender_bypass (env : NetEnv) (s : RepState) :
    (∀ (msg : NetworkMessageObjectReplicate) e s1,
      ResolveObjectCtx env s msg.objectId msg.parentId msg.objectTypeName = some (e, s1) →
      s1.live.contains e.objectId = true →
      e.role ≠ NetworkObjectRole.OwnedAuthoritative →
      e.lastOwnerFrame < msg.ownerFrame →
      (OnNetworkMessageObjectReplicate env s none msg).2 = true) ∧
    (∀ (msg : NetworkMessageObjectDespawn) e,
      ResolveObject s msg.objectId = some e →
      s.live.contains e.objectId = true → e.spawned = true →
      OnNetworkMessageObjectDespawn env s none msg =
        { s with objects := removeEntry s.objects e.objectId,
                 live := s.live.erase e.objectId }) ∧
    (∀ (msg : NetworkMessageObjectRole) e,
      ResolveObject s msg.objectId = some e →
      s.live.contains e.objectId = true →
      (findEntry (OnNetworkMessageObjectRole env s none msg).1.objects e.objectId).map
          (fun x => x.ownerClientId) = some msg.ownerClientId) := by
  refine ⟨?_, ?_, ?_⟩
  · intro msg e s1 hres halive hrole hlt
    have hc1 : ¬ (s1.live.contains e.objectId = false) := by rw [halive]; simp
    have hsm : ¬ (senderMismatch none e.ownerClientId = true) := by
      simp [senderMismatch]
    simp only [OnNetworkMessageObjectReplicate, hres]
    rw [if_neg hc1, if_neg hsm, if_neg hrole,
      if_neg (by omega : ¬ e.lastOwnerFrame ≥ msg.ownerFrame)]
  · intro msg e hres halive hspawned
    have hg : ¬ (s.live.contains e.objectId = false ∨ e.spawned = false) := by
      rw [halive, hspawned]; simp
    have hsm : ¬ (senderMismatch none e.ownerClientId = true) := by
      simp [senderMismatch]
    simp only [OnNetworkMessageObjectDespawn, hres]
    rw [if_neg hg, if_neg hsm]
  · intro msg e hres halive
    have hc1 : ¬ (s.live.contains e.objectId = false) := by rw [halive]; simp
    have hsm : ¬ (senderMismatch none e.ownerClientId = true) := by
      simp [senderMismatch]
    have hfind := resolveObject_findEntry hres
    simp only [OnNetworkMessageObjectRole, hres]
    rw [if_neg hc1, if_neg hsm]
    dsimp only
    rw [findEntry_updateEntry_eq hfind (by repeat' first | rfl | split)]
    split
    · rfl
    · split
      · rfl
      · rfl

/-- Witness for C10: a server-originated (sender-less) StateUpdate with
sequence 9 is applied to `c2Entry` although no sender identity matches the
recorded owner 4. -/
theorem C10_null_sender_bypass_witness :
    (OnNetworkMessageObjectReplicate clientEnv c2State none ⟨9, 1, 0, 10⟩).2 = true :=
  (C10_null_sender_bypass clientEnv c2State).1 ⟨9, 1, 0, 10⟩ c2Entry c2State
    (by decide) (by decide) (by decide) (by decide)

/-- C5 amended: a despawn call for an object whose entry is absent or not yet
marked spawned is a no-op — the pending spawn intent survives and the object
is not destroyed (so a spawn message still goes out at the next flush, as the
counterexample shows).  The cancel-before-send path runs only for an entry
already marked spawned and owned by the local peer: then exactly one despawn
is queued, any pending spawn intent for the object is removed, and the local
object is destroyed synchronously. -/
theorem C5_despawn_pending_spawn_amended (env : NetEnv) (s : RepState) (objId : Nat) :
    (∀ item, findEntry s.objects objId = some item → item.spawned = false →
      DespawnObject env s objId = s) ∧
    (findEntry s.objects objId = none → DespawnObject env s objId = s) ∧
    (∀ item, s.live.contains objId = true → env.online = true →
      findEntry s.objects objId = some item → item.spawned = true →
      item.ownerClientId = env.localClientId →
      DespawnObject env s objId =
        { s with despawnQueue := s.despawnQueue ++ [objId],
                 spawnQueue := s.spawnQueue.erase objId,
                 live := s.live.erase objId }) := by
  refine ⟨?_, ?_, ?_⟩
  · intro item hfind hsp
    unfold DespawnObject
    split
    · rfl
    · simp only [hfind]
      rw [if_pos (Or.inl hsp)]
  · intro hnone
    unfold DespawnObject
    split
    · rfl
    · simp only [hnone]
  · intro item hlive honline hfind hsp howner
    unfold DespawnObject
    rw [if_neg (by rw [hlive, honline]; simp)]
    simp only [hfind]
    rw [if_neg (by rw [hsp]; simp [howner])]

/-- Witness for C5's amended claim: despawning the already-spawned, locally
owned object 1 queues the despawn, removes the pending spawn intent and kills
the object. -/
theorem C5_despawn_pending_spawn_amended_witness :
    DespawnObject baseEnv c5w 1 =
      { c5w with despawnQueue := c5w.despawnQueue ++ [1],
                 spawnQueue := c5w.spawnQueue.erase 1,
                 live := c5w.live.erase 1 } :=
  (C5_despawn_pending_spawn_amended baseEnv c5w 1).2.2 c5wEntry (by decide) (by decide)
    (by decide) (by decide) (by decide)

/-- C7 amended: handling a Spawn for an unresolvable object id (no prefab
reference) on any peer appends a new entry whose canonical id is the freshly
allocated object id (different from the message's object_id), with role
Replicated and marked spawned, records the remapping message-id to canonical
id — but the entry's OwnerClientId is the attached sender's client id or the
server's client id when no sender is attached; the owner_client_id field
carried by the message is ignored for the new entry. -/
theorem C7_unresolvable_spawn_amended (env : NetEnv) (s : RepState) (sender : Option Nat)
    (msg : NetworkMessageObjectSpawn) (freshId : Nat) (ty : ScriptingType)
    (hres : ResolveObjectCtx env s msg.objectId msg.parentId msg.objectTypeName = none)
    (hpref : msg.prefabId = 0)
    (hty : env.findType msg.objectTypeName = some ty)
    (hfresh : freshId ≠ msg.objectId)
    (hremap : tableGet s.remap msg.objectId = none) :
    (OnNetworkMessageObjectSpawn env s sender msg freshId).objects =
      s.objects ++
        [{ objectId := freshId,
           parentId := match ResolveObject s msg.parentId with
             | some p => p.objectId
             | none => 0,
           ownerClientId := match sender with
             | some c => c
             | none => env.serverClientId,
           lastOwnerFrame := 0, role := NetworkObjectRole.Replicated,
           spawned := true, invalidTypeWarn := false }] ∧
    freshId ≠ msg.objectId ∧
    tableGet (OnNetworkMessageObjectSpawn env s sender msg freshId).remap msg.objectId =
      some freshId := by
  have hacq : (if msg.prefabId ≠ 0 then
        env.spawnPrefabObject msg.prefabId msg.prefabObjectId
      else match env.findType msg.objectTypeName with
        | some _ => some freshId
        | none => none) = some freshId := by
    rw [if_neg (by simp [hpref]), hty]
  refine ⟨?_, hfresh, ?_⟩
  · simp only [OnNetworkMessageObjectSpawn, hres, hacq]
  · simp only [OnNetworkMessageObjectSpawn, hres, hacq]
    exact tableGet_append_fresh s.remap msg.objectId freshId hremap

/-- Witness for C7's amended claim at the Scenario B input (sender absent,
owner field 7 ignored, fresh id 42). -/
theorem C7_unresolvable_spawn_amended_witness :
    c7res.objects =
      emptyState.objects ++
        [{ objectId := 42,
           parentId := match ResolveObject emptyState 0 with
             | some p => p.objectId
             | none => 0,
           ownerClientId := clientEnv.serverClientId,
           lastOwnerFrame := 0, role := NetworkObjectRole.Replicated,
           spawned := true, invalidTypeWarn := false }] ∧
    (42 : Nat) ≠ 5 ∧
    tableGet c7res.remap 5 = some 42 :=
  C7_unresolvable_spawn_amended clientEnv emptyState none ⟨5, 0, 0, 0, 7, 10⟩ 42
    (ScriptingType.root 1 none) (by decide) (by decide) (by decide) (by decide) (by decide)

/-- C9 amended: an accepted OwnershipChange writes the new owner, resets
LastOwnerFrame to 0 when the local peer gains ownership and to 1 otherwise,
upgrades the role to OwnedAuthoritative exactly when the new owner is the
local peer and downgrades OwnedAuthoritative to Replicated otherwise, and on
the server re-broadcasts the role message to all other connected peers
excluding the sender.  A local owner transferring ownership away via
SetObjectOwnership writes the new owner with LastOwnerFrame 1 and sets the
role to the caller-supplied local role (checked to not be OwnedAuthoritative
— not necessarily Replicated), sending one role message. -/
theorem C9_ownership_change_amended (env : NetEnv) :
    (∀ (s : RepState) (sender : Option Nat) (msg : NetworkMessageObjectRole)
        (e : NetworkReplicatedObject),
      ResolveObject s msg.objectId = some e →
      s.live.contains e.objectId = true →
      senderMismatch sender e.ownerClientId = false →
      findEntry (OnNetworkMessageObjectRole env s sender msg).1.objects e.objectId =
        some (roleUpdatedEntry env e msg.ownerClientId) ∧
      (OnNetworkMessageObjectRole env s sender msg).2 =
        (if env.isClient then []
         else [SendObjectRoleMessage env (roleUpdatedEntry env e msg.ownerClientId) sender])) ∧
    (∀ (s : RepState) (objId newOwner : Nat) (localRole : NetworkObjectRole)
        (item : NetworkReplicatedObject),
      findEntry s.objects objId = some item →
      item.ownerClientId = env.localClientId →
      newOwner ≠ env.localClientId →
      localRole ≠ NetworkObjectRole.OwnedAuthoritative →
      findEntry (SetObjectOwnership env s objId newOwner localRole).1.objects objId =
        some { item with ownerClientId := newOwner, lastOwnerFrame := 1, role := localRole } ∧
      (SetObjectOwnership env s objId newOwner localRole).2 =
        [SendObjectRoleMessage env
          { item with ownerClientId := newOwner, lastOwnerFrame := 1, role := localRole }
          none]) := by
  constructor
  · intro s sender msg e hres halive hsm
    have hc1 : ¬ (s.live.contains e.objectId = false) := by rw [halive]; simp
    have hsm' : ¬ (senderMismatch sender e.ownerClientId = true) := by rw [hsm]; simp
    have hfind := resolveObject_findEntry hres
    simp only [OnNetworkMessageObjectRole, hres]
    rw [if_neg hc1, if_neg hsm']
    dsimp only
    by_cases hloc : msg.ownerClientId = env.localClientId
    · constructor
      · rw [findEntry_updateEntry_eq hfind (by repeat' first | rfl | split)]
        simp [roleUpdatedEntry, hloc]
      · simp [roleUpdatedEntry, hloc]
    · by_cases hr : e.role = NetworkObjectRole.OwnedAuthoritative
      · constructor
        · rw [findEntry_updateEntry_eq hfind (by repeat' first | rfl | split)]
          simp [roleUpdatedEntry, hloc, hr]
        · simp [roleUpdatedEntry, hloc, hr]
      · constructor
        · rw [findEntry_updateEntry_eq hfind (by repeat' first | rfl | split)]
          simp [roleUpdatedEntry, hloc, hr]
        · simp [roleUpdatedEntry, hloc, hr]
  · intro s objId newOwner localRole item hfind howner hnew hrole
    have hne : item.ownerClientId ≠ newOwner := by
      rw [howner]
      exact fun h => hnew h.symm
    simp only [SetObjectOwnership, hfind]
    rw [if_pos howner, if_pos hne, if_neg hrole]
    refine ⟨?_, rfl⟩
    dsimp only
    exact findEntry_updateEntry hfind
      (f := fun _ => { item with ownerClientId := newOwner, lastOwnerFrame := 1, role := localRole })
      (fun _ _ => by
        show item.objectId = objId
        exact findEntry_some_id hfind)

/-- Witness for C9's amended claim: the server owner hands object 3 to
client 5 with local role Replicated. -/
theorem C9_ownership_change_amended_witness :
    findEntry (SetObjectOwnership baseEnv c9s 3 5 NetworkObjectRole.Replicated).1.objects 3 =
      some { c8entry with
             ownerClientId := 5, lastOwnerFrame := 1,
             role := NetworkObjectRole.Replicated } ∧
    (SetObjectOwnership baseEnv c9s 3 5 NetworkObjectRole.Replicated).2 =
      [SendObjectRoleMessage baseEnv
        { c8entry with
          ownerClientId := 5, lastOwnerFrame := 1,
          role := NetworkObjectRole.Replicated } none] :=
  (C9_ownership_change_amended baseEnv).2 c9s 3 5 NetworkObjectRole.Replicated c8entry
    (by decide) (by decide) (by decide) (by decide)

/- Queue-preservation helpers for the tick driver. -/

/-- AddObject only ever touches the objects list. -/
theorem AddObject_queues (env : NetEnv) (s : RepState) (objId : Nat) (parent : Option Nat) :
    (AddObject env s objId parent).spawnQueue = s.spawnQueue ∧
    (AddObject env s objId parent).despawnQueue = s.despawnQueue := by
  unfold AddObject
  split
  · exact ⟨rfl, rfl⟩
  · split
    · exact ⟨rfl, rfl⟩
    · exact ⟨rfl, rfl⟩

/-- One spawn-flush step preserves both queues. -/
theorem spawnFlushStep_queues (env : NetEnv) (acc : RepState × List TaggedMsg) (objId : Nat) :
    (spawnFlushStep env acc objId).1.spawnQueue = acc.1.spawnQueue ∧
    (spawnFlushStep env acc objId).1.despawnQueue = acc.1.despawnQueue := by
  rcases h0 : findEntry acc.1.objects objId with _ | item0
  · simp only [spawnFlushStep, h0]
    obtain ⟨ha1, ha2⟩ := AddObject_queues env acc.1 objId none
    split
    · exact ⟨ha1, ha2⟩
    · split
      · exact ⟨ha1, ha2⟩
      · exact ⟨ha1, ha2⟩
  · simp only [spawnFlushStep, h0]
    split
    · exact ⟨rfl, rfl⟩
    · exact ⟨rfl, rfl⟩

/-- The spawn-flush fold preserves both queues of its accumulator. -/
theorem spawnFlushFold_queues (env : NetEnv) :
    ∀ (q : List Nat) (acc : RepState × List TaggedMsg),
      (q.foldl (spawnFlushStep env) acc).1.spawnQueue = acc.1.spawnQueue ∧
      (q.foldl (spawnFlushStep env) acc).1.despawnQueue = acc.1.despawnQueue := by
  intro q
  induction q with
  | nil => intro acc; exact ⟨rfl, rfl⟩
  | cons a t ih =>
    intro acc
    simp only [List.foldl_cons]
    obtain ⟨h1, h2⟩ := ih (spawnFlushStep env acc a)
    obtain ⟨g1, g2⟩ := spawnFlushStep_queues env acc a
    exact ⟨h1.trans g1, h2.trans g2⟩

/-- After the spawn flush the spawn queue is empty and the despawn queue is
whatever it was before. -/
theorem spawnFlushRun_queues (env : NetEnv) (s : RepState) :
    (spawnFlushRun env s).1.spawnQueue = [] ∧
    (spawnFlushRun env s).1.despawnQueue = s.despawnQueue := by
  obtain ⟨h1, h2⟩ := spawnFlushFold_queues env s.spawnQueue ({ s with spawnQueue := [] }, [])
  exact ⟨h1, h2⟩

/-- One broadcast step preserves both queues. -/
theorem broadcastStep_queues (env : NetEnv) (acc : RepState × List TaggedMsg)
    (item : NetworkReplicatedObject) :
    (broadcastStep env acc item).1.spawnQueue = acc.1.spawnQueue ∧
    (broadcastStep env acc item).1.despawnQueue = acc.1.despawnQueue := by
  unfold broadcastStep
  dsimp only
  split
  · exact ⟨rfl, rfl⟩
  · split
    · exact ⟨rfl, rfl⟩
    · exact ⟨rfl, rfl⟩

/-- The broadcast fold preserves both queues of its accumulator. -/
theorem broadcastFold_queues (env : NetEnv) :
    ∀ (q : List NetworkReplicatedObject) (acc : RepState × List TaggedMsg),
      (q.foldl (broadcastStep env) acc).1.spawnQueue = acc.1.spawnQueue ∧
      (q.foldl (broadcastStep env) acc).1.despawnQueue = acc.1.despawnQueue := by
  intro q
  induction q with
  | nil => intro acc; exact ⟨rfl, rfl⟩
  | cons a t ih =>
    intro acc
    simp only [List.foldl_cons]
    obtain ⟨h1, h2⟩ := ih (broadcastStep env acc a)
    obtain ⟨g1, g2⟩ := broadcastStep_queues env acc a
    exact ⟨h1.trans g1, h2.trans g2⟩

/-- The broadcast pass preserves both queues. -/
theorem broadcastPass_queues (env : NetEnv) (s : RepState) :
    (broadcastPass env s).1.spawnQueue = s.spawnQueue ∧
    (broadcastPass env s).1.despawnQueue = s.despawnQueue :=
  broadcastFold_queues env s.objects (s, [])

/-- C8 amended: the tick update drains both queues whenever the registry is
non-empty and either the peer is a client or the server has at least one
connected client; on the empty-registry and server-with-no-targets early
exits the queues are left untouched (see the counterexample). -/
theorem C8_queues_drained_amended (env : NetEnv) (s : RepState)
    (h1 : s.objects ≠ [])
    (h2 : env.isClient = true ∨ connectedTargets env ≠ []) :
    (NetworkReplicatorUpdate env s).1.spawnQueue = [] ∧
    (NetworkReplicatorUpdate env s).1.despawnQueue = [] := by
  have hne : ¬ (s.objects.isEmpty = true) := by
    simp only [List.isEmpty_iff]
    exact h1
  have hearly : ¬ (env.isClient = false ∧ connectedTargets env = []) := by
    rintro ⟨hc, ht⟩
    rcases h2 with h | h
    · rw [h] at hc
      cases hc
    · exact h ht
  unfold NetworkReplicatorUpdate
  rw [if_neg hne]
  dsimp only
  rw [if_neg hearly]
  constructor
  · by_cases hic : env.isClient = true
    · rw [if_pos hic]
      exact (spawnFlushRun_queues env _).1
    · rw [if_neg hic]
      exact ((broadcastPass_queues env _).1).trans ((spawnFlushRun_queues env _).1)
  · by_cases hic : env.isClient = true
    · rw [if_pos hic]
      exact (spawnFlushRun_queues env _).2
    · rw [if_neg hic]
      exact ((broadcastPass_queues env _).2).trans ((spawnFlushRun_queues env _).2)

/-- Witness for C8's amended claim: the server with one connected client and a
non-empty registry drains both queues. -/
theorem C8_queues_drained_amended_witness :
    (NetworkReplicatorUpdate baseEnv c8sB).1.spawnQueue = [] ∧
    (NetworkReplicatorUpdate baseEnv c8sB).1.despawnQueue = [] :=
  C8_queues_drained_amended baseEnv c8sB (by decide) (Or.inr (by decide))

/- Phase machinery for the flush-order claim. -/

/-- Every catch-up message is tagged with the catch-up phase. -/
theorem catchupMsgs_phase (env : NetEnv) (s : RepState) :
    ∀ x ∈ catchupMsgs env s, x.phase = Phase.catchup := by
  intro x hx
  simp only [catchupMsgs, List.mem_map] at hx
  obtain ⟨it, _, rfl⟩ := hx
  rfl

/-- Every despawn-flush message is tagged with the despawn-flush phase. -/
theorem despawnMsgs_phase (env : NetEnv) (s : RepState) :
    ∀ x ∈ despawnMsgs env s, x.phase = Phase.despawnFlush := by
  intro x hx
  simp only [despawnMsgs, List.mem_map] at hx
  obtain ⟨it, _, rfl⟩ := hx
  rfl

/-- A spawn-flush step only ever appends spawn-flush-tagged messages. -/
theorem spawnFlushStep_phase (env : NetEnv) (acc : RepState × List TaggedMsg) (objId : Nat) :
    ∀ x ∈ (spawnFlushStep env acc objId).2, x ∈ acc.2 ∨ x.phase = Phase.spawnFlush := by
  intro x hx
  rcases h0 : findEntry acc.1.objects objId with _ | item0
  · simp only [spawnFlushStep, h0] at hx
    split at hx
    · exact Or.inl hx
    · split at hx
      · exact Or.inl hx
      · rcases List.mem_append.mp hx with h | h
        · exact Or.inl h
        · simp only [List.mem_singleton] at h
          subst h
          exact Or.inr rfl
  · simp only [spawnFlushStep, h0] at hx
    split at hx
    · exact Or.inl hx
    · rcases List.mem_append.mp hx with h | h
      · exact Or.inl h
      · simp only [List.mem_singleton] at h
        subst h
        exact Or.inr rfl

/-- The spawn-flush fold only accumulates spawn-flush-tagged messages. -/
theorem spawnFoldl_phase (env : NetEnv) :
    ∀ (q : List Nat) (acc : RepState × List TaggedMsg),
      (∀ x ∈ acc.2, x.phase = Phase.spawnFlush) →
      ∀ x ∈ (q.foldl (spawnFlushStep env) acc).2, x.phase = Phase.spawnFlush := by
  intro q
  induction q with
  | nil => intro acc hacc; exact hacc
  | cons a t ih =>
    intro acc hacc
    simp only [List.foldl_cons]
    refine ih (spawnFlushStep env acc a) ?_
    intro x hx
    rcases spawnFlushStep_phase env acc a x hx with h | h
    · exact hacc x h
    · exact h

/-- Every message of the spawn flush is tagged with the spawn-flush phase. -/
theorem spawnFlushRun_phase (env : NetEnv) (s : RepState) :
    ∀ x ∈ (spawnFlushRun env s).2, x.phase = Phase.spawnFlush := by
  intro x hx
  exact spawnFoldl_phase env s.spawnQueue _ (fun _ h => absurd h (List.not_mem_nil _)) x hx

/-- A broadcast step only ever appends broadcast-tagged messages. -/
theorem broadcastStep_phase (env : NetEnv) (acc : RepState × List TaggedMsg)
    (item : NetworkReplicatedObject) :
    ∀ x ∈ (broadcastStep env acc item).2, x ∈ acc.2 ∨ x.phase = Phase.broadcastState := by
  intro x hx
  unfold broadcastStep at hx
  dsimp only at hx
  split at hx
  · exact Or.inl hx
  · split at hx
    · exact Or.inl hx
    · rcases List.mem_append.mp hx with h | h
      · exact Or.inl h
      · simp only [List.mem_singleton] at h
        subst h
        exact Or.inr rfl

/-- The broadcast fold only accumulates broadcast-tagged messages. -/
theorem broadcastFold_phase (env : NetEnv) :
    ∀ (q : List NetworkReplicatedObject) (acc : RepState × List TaggedMsg),
      (∀ x ∈ acc.2, x.phase = Phase.broadcastState) →
      ∀ x ∈ (q.foldl (broadcastStep env) acc).2, x.phase = Phase.broadcastState := by
  intro q
  induction q with
  | nil => intro acc hacc; exact hacc
  | cons a t ih =>
    intro acc hacc
    simp only [List.foldl_cons]
    refine ih (broadcastStep env acc a) ?_
    intro x hx
    rcases broadcastStep_phase env acc a x hx with h | h
    · exact hacc x h
    · exact h

/-- Every message of the broadcast pass is tagged with the broadcast phase. -/
theorem broadcastPass_phase (env : NetEnv) (s : RepState) :
    ∀ x ∈ (broadcastPass env s).2, x.phase = Phase.broadcastState := by
  intro x hx
  exact broadcastFold_phase env s.objects _ (fun _ h => absurd h (List.not_mem_nil _)) x hx

/-- A list all of whose elements carry the same phase is rank-sorted. -/
theorem pairwise_rank_const {l : List TaggedMsg} {p : Phase}
    (h : ∀ x ∈ l, x.phase = p) :
    l.Pairwise (fun a b => phaseRank a.phase ≤ phaseRank b.phase) := by
  induction l with
  | nil => exact List.Pairwise.nil
  | cons a t ih =>
    refine List.Pairwise.cons ?_ (ih fun x hx => h x (List.mem_cons_of_mem _ hx))
    intro b hb
    rw [h a (List.mem_cons_self _ _), h b (List.mem_cons_of_mem _ hb)]

/-- The concatenation of the four phase-pure segments of a tick is
rank-sorted. -/
theorem pairwise_rank_parts {A B C D : List TaggedMsg}
    (hA : ∀ x ∈ A, x.phase = Phase.catchup)
    (hB : ∀ x ∈ B, x.phase = Phase.despawnFlush)
    (hC : ∀ x ∈ C, x.phase = Phase.spawnFlush)
    (hD : ∀ x ∈ D, x.phase = Phase.broadcastState) :
    (A ++ B ++ C ++ D).Pairwise (fun a b => phaseRank a.phase ≤ phaseRank b.phase) := by
  rw [List.pairwise_append]
  refine ⟨?_, pairwise_rank_const hD, ?_⟩
  · rw [List.pairwise_append]
    refine ⟨?_, pairwise_rank_const hC, ?_⟩
    · rw [List.pairwise_append]
      refine ⟨pairwise_rank_const hA, pairwise_rank_const hB, ?_⟩
      intro a ha b hb
      rw [hA a ha, hB b hb]
      decide
    · intro a ha b hb
      rcases List.mem_append.mp ha with h | h
      · rw [hA a h, hC b hb]
        decide
      · rw [hB a h, hC b hb]
        decide
  · intro a ha b hb
    rcases List.mem_append.mp ha with h | h
    · rcases List.mem_append.mp h with h' | h'
      · rw [hA a h', hD b hb]
        decide
      · rw [hB a h', hD b hb]
        decide
    · rw [hC a h, hD b hb]
      decide

/-- The message trace of one tick is sorted by phase rank: catch-up, then
despawn flush, then spawn flush, then broadcast. -/
theorem update_phase_pairwise (env : NetEnv) (s : RepState) :
    ((NetworkReplicatorUpdate env s).2).Pairwise
      (fun a b => phaseRank a.phase ≤ phaseRank b.phase) := by
  unfold NetworkReplicatorUpdate
  split
  · exact List.Pairwise.nil
  · dsimp only
    by_cases hC1 : env.isClient = false ∧ s.newClients ≠ []
    · rw [if_pos hC1]
      by_cases hB1 : env.isClient = false ∧ connectedTargets env = []
      · rw [if_pos hB1]
        exact pairwise_rank_const (catchupMsgs_phase env s)
      · rw [if_neg hB1]
        dsimp only
        exact pairwise_rank_parts (catchupMsgs_phase env s) (despawnMsgs_phase env _)
          (spawnFlushRun_phase env _)
          (fun x hx => by
            split at hx
            · exact absurd hx (List.not_mem_nil _)
            · exact broadcastPass_phase env _ x hx)
    · rw [if_neg hC1]
      by_cases hB1 : env.isClient = false ∧ connectedTargets env = []
      · rw [if_pos hB1]
        exact List.Pairwise.nil
      · rw [if_neg hB1]
        dsimp only
        exact pairwise_rank_parts (fun x hx => absurd hx (List.not_mem_nil _))
          (despawnMsgs_phase env _) (spawnFlushRun_phase env _)
          (fun x hx => by
            split at hx
            · exact absurd hx (List.not_mem_nil _)
            · exact broadcastPass_phase env _ x hx)

/-- C6: within every tick update, every message the despawn-queue flush puts
on the wire precedes every message the spawn-queue flush puts on the wire: no
spawn-flush message occurs anywhere before a despawn-flush message in the
emitted trace. -/
theorem C6_despawn_before_spawn (env : NetEnv) (s : RepState)
    (pre post : List TaggedMsg) (m : TaggedMsg)
    (hsplit : (NetworkReplicatorUpdate env s).2 = pre ++ m :: post)
    (hm : m.phase = Phase.despawnFlush) :
    ∀ x ∈ pre, x.phase ≠ Phase.spawnFlush := by
  intro x hx hxp
  have hp := update_phase_pairwise env s
  rw [hsplit, List.pairwise_append] at hp
  have hle := hp.2.2 x hx m (List.mem_cons_self _ _)
  rw [hxp, hm] at hle
  exact absurd hle (by decide)

/-- Witness for C6: a tick that emits a catch-up spawn followed by a queued
despawn message; the message preceding the despawn is not a spawn-flush
message. -/
theorem C6_despawn_before_spawn_witness :
    (⟨Phase.catchup, WireMsg.spawnMsg 3 0 0 0 0⟩ : TaggedMsg).phase ≠ Phase.spawnFlush :=
  C6_despawn_before_spawn baseEnv c6s [⟨Phase.catchup, WireMsg.spawnMsg 3 0 0 0 0⟩] []
    ⟨Phase.despawnFlush, WireMsg.despawnMsg 4⟩ (by decide) rfl
    ⟨Phase.catchup, WireMsg.spawnMsg 3 0 0 0 0⟩ (by decide)

/-- C1 amended: the role/ownership invariant (role == OwnedAuthoritative iff
owner_client_id == local client id) is established by AddObject for every
entry and preserved by SetObjectOwnership and by the OwnershipChange handler
unconditionally; the Spawn handler preserves it only under the additional
assumptions that an attached sender is not the local peer (always true for a
server receiving from a remote client) and that, on a client, the message's
owner_client_id differs from the local client id — a client receiving a
Spawn naming itself as owner ends with owner == local but role == Replicated
(the handler never upgrades the role; see the counterexample). -/
theorem C1_role_invariant_amended (env : NetEnv) (s : RepState)
    (hwf : envWF env)
    (hids : (s.objects.map (fun e => e.objectId)).Nodup)
    (hinv : ∀ e ∈ s.objects, roleInv env e) :
    (∀ objId parent, ∀ e ∈ (AddObject env s objId parent).objects, roleInv env e) ∧
    (∀ objId newOwner localRole,
      ∀ e ∈ (SetObjectOwnership env s objId newOwner localRole).1.objects, roleInv env e) ∧
    (∀ sender msg, ∀ e ∈ (OnNetworkMessageObjectRole env s sender msg).1.objects,
      roleInv env e) ∧
    (∀ sender msg freshId,
      (match sender with
        | some c => c ≠ env.localClientId
        | none => env.isClient = true) →
      (env.isClient = true → msg.ownerClientId ≠ env.localClientId) →
      ∀ e ∈ (OnNetworkMessageObjectSpawn env s sender msg freshId).objects,
        roleInv env e) := by
  refine ⟨?_, ?_, ?_, ?_⟩
  · -- AddObject
    intro objId parent e he
    unfold AddObject at he
    split at he
    · exact hinv e he
    · split at he
      · exact hinv e he
      · simp only [List.mem_append, List.mem_singleton] at he
        rcases he with he | he
        · exact hinv e he
        · subst he
          unfold roleInv
          dsimp only
          cases hc : env.isClient with
          | false =>
            have hs := hwf.2 hc
            simp [hs]
          | true =>
            have hs := hwf.1 hc
            simp [hs]
  · -- SetObjectOwnership
    intro objId newOwner localRole e he
    unfold SetObjectOwnership at he
    split at he
    · exact hinv e he
    · rename_i item hfind
      split at he
      · split at he
        · split at he
          · exact hinv e he
          · rename_i hloc hneq hrole
            dsimp only at he
            simp only [updateEntry, List.mem_map] at he
            obtain ⟨x, hxmem, hxe⟩ := he
            by_cases hxid : x.objectId = objId
            · rw [if_pos hxid] at hxe
              subst hxe
              unfold roleInv
              dsimp only
              constructor
              · intro h
                exact absurd h hrole
              · intro h
                exact absurd (hloc.trans h.symm) hneq
            · rw [if_neg hxid] at hxe
              subst hxe
              exact hinv x hxmem
        · exact hinv e he
      · split at he
        · exact hinv e he
        · rename_i hloc hrole
          dsimp only at he
          simp only [updateEntry, List.mem_map] at he
          obtain ⟨x, hxmem, hxe⟩ := he
          by_cases hxid : x.objectId = objId
          · rw [if_pos hxid] at hxe
            subst hxe
            have hx_item : x = item := findEntry_unique hids hfind x hxmem hxid
            unfold roleInv
            dsimp only
            constructor
            · intro h
              exact absurd h hrole
            · intro h
              rw [hx_item] at h
              exact absurd h hloc
          · rw [if_neg hxid] at hxe
            subst hxe
            exact hinv x hxmem
  · -- OnNetworkMessageObjectRole
    intro sender msg e he
    unfold OnNetworkMessageObjectRole at he
    split at he
    · exact hinv e he
    · rename_i e0 hres
      split at he
      · exact hinv e he
      · split at he
        · exact hinv e he
        · dsimp only at he
          simp only [updateEntry, List.mem_map] at he
          obtain ⟨x, hxmem, hxe⟩ := he
          by_cases hxid : x.objectId = e0.objectId
          · rw [if_pos hxid] at hxe
            subst hxe
            unfold roleInv
            by_cases hloc : msg.ownerClientId = env.localClientId
            · simp [hloc]
            · by_cases hr : e0.role = NetworkObjectRole.OwnedAuthoritative
              · simp [hloc, hr]
              · simp [hloc, hr]
          · rw [if_neg hxid] at hxe
            subst hxe
            exact hinv x hxmem
  · -- OnNetworkMessageObjectSpawn
    intro sender msg freshId hsender hmsg e he
    unfold OnNetworkMessageObjectSpawn at he
    split at he
    · -- resolved: the entry is reconciled in place
      rename_i e0 s1 hres
      dsimp only at he
      rw [(resolveCtx_frame hres).1] at he
      simp only [updateEntry, List.mem_map] at he
      obtain ⟨x, hxmem, hxe⟩ := he
      by_cases hxid : x.objectId = e0.objectId
      · rw [if_pos hxid] at hxe
        subst hxe
        cases hc : env.isClient with
        | false =>
          have hx := hinv x hxmem
          unfold roleInv at hx ⊢
          simpa using hx
        | true =>
          have hno := hmsg hc
          unfold roleInv
          by_cases hr : x.role = NetworkObjectRole.OwnedAuthoritative
          · simp [hr, hno]
          · simp [hr, hno]
      · rw [if_neg hxid] at hxe
        subst hxe
        exact hinv x hxmem
    · -- unresolved: a fresh Replicated entry is appended
      dsimp only at he
      split at he
      · exact hinv e he
      · rename_i objId2 hacq
        simp only [List.mem_append, List.mem_singleton] at he
        rcases he with he | he
        · exact hinv e he
        · subst he
          unfold roleInv
          dsimp only
          cases sender with
          | some c =>
            have hs : c ≠ env.localClientId := hsender
            simp [hs]
          | none =>
            have hc : env.isClient = true := hsender
            have hs := hwf.1 hc
            simp [hs]

/-- Witness for C1's amended claim: AddObject on the client registers a fresh
entry satisfying the role invariant (server-owned, Replicated). -/
theorem C1_role_invariant_amended_witness :
    roleInv clientEnv
      { objectId := 7, parentId := 0, ownerClientId := 0, lastOwnerFrame := 0,
        role := NetworkObjectRole.Replicated, spawned := false,
        invalidTypeWarn := false } :=
  (C1_role_invariant_amended clientEnv c1s (by decide) (by decide)
    (by decide)).1 7 none
    { objectId := 7, parentId := 0, ownerClientId := 0, lastOwnerFrame := 0,
      role := NetworkObjectRole.Replicated, spawned := false,
      invalidTypeWarn := false } (by decide)

end NetRep
